import Mathlib

/-!
Shallow embedding of the commitgen generation client (src/main.rs):
the JSON response contract (GeminiClient::parse_response_json), the
request construction (GeminiClient::new and the body built in
LLMClient::generate for GeminiClient), and the HTTP error handling of
generate.  JSON values are modelled as a tree of nulls, booleans,
numbers (serde_json numbers, modelled as rationals; no float
arithmetic is performed anywhere in the source), strings, ordered
sequences and keyed maps.
-/

/-- A structured value (serde_json::Value): null, bool, number, string,
ordered sequence, keyed map. -/
inductive Json where
  | null : Json
  | bool (b : Bool) : Json
  | num (q : Rat) : Json
  | str (s : String) : Json
  | arr (xs : List Json) : Json
  | obj (fields : List (String × Json)) : Json

/-- Value::get with a string key: defined only on maps (serde_json
returns None on every other variant). -/
def Json.getKey : Json → String → Option Json
  | .obj fields, k => fields.lookup k
  | _, _ => none

/-- Value::get with a numeric index: defined only on ordered sequences
(serde_json returns None on every other variant). -/
def Json.getIdx : Json → Nat → Option Json
  | .arr xs, i => xs[i]?
  | _, _ => none

/-- Value::as_str: Some only on strings. -/
def Json.asStr : Json → Option String
  | .str s => some s
  | _ => none

/-- Whether a value is an ordered sequence. -/
def Json.isArr : Json → Bool
  | .arr _ => true
  | _ => false

/-- Rust char::is_whitespace: the Unicode White_Space property. -/
def rustIsWhitespace (c : Char) : Bool :=
  let n := c.toNat
  decide ((0x9 ≤ n ∧ n ≤ 0xD) ∨ n = 0x20 ∨ n = 0x85 ∨ n = 0xA0 ∨ n = 0x1680 ∨
    (0x2000 ≤ n ∧ n ≤ 0x200A) ∨ n = 0x2028 ∨ n = 0x2029 ∨ n = 0x202F ∨
    n = 0x205F ∨ n = 0x3000)

/-- Rust str::trim: drop leading and trailing whitespace characters. -/
def rustTrim (s : String) : String :=
  List.asString
    (((s.toList.dropWhile rustIsWhitespace).reverse.dropWhile rustIsWhitespace).reverse)

example : rustTrim "  Commit message here \n" = "Commit message here" := by decide
example : rustTrim " \n\t " = "" := by decide

/-- Extraction failure: the code builds an anyhow error that renders the
whole original response into its message; the error is modelled as
carrying the original response value. -/
inductive ExtractionError where
  | malformedResponse (response : Json) : ExtractionError

/-- candidates[0]: the lookup chain of parse_response_json up to
get("candidates").and_then(get(0)). -/
def candidates0 (v : Json) : Option Json :=
  (v.getKey "candidates").bind (fun c => c.getIdx 0)

/-- candidates[0].content.parts: the chain continued through
get("content").and_then(get("parts")). -/
def partsOf (v : Json) : Option Json :=
  ((candidates0 v).bind (fun c => c.getKey "content")).bind
    (fun c => c.getKey "parts")

/-- candidates[0].content.parts[0].text: the chain continued through
get(0).and_then(get("text")). -/
def textLeaf (v : Json) : Option Json :=
  ((partsOf v).bind (fun p => p.getIdx 0)).bind (fun p => p.getKey "text")

/-- The successful part of GeminiClient::parse_response_json: the full
lookup chain, then as_str, then trim. -/
def extractTextOpt (v : Json) : Option String :=
  ((textLeaf v).bind Json.asStr).map rustTrim

/-- GeminiClient::parse_response_json: the extracted trimmed string, or
the MalformedResponse error carrying the original response. -/
def parse_response_json (v : Json) : Except ExtractionError String :=
  match extractTextOpt v with
  | some s => Except.ok s
  | none => Except.error (ExtractionError.malformedResponse v)

/-- The client: an api_key and the endpoint derived from it
(GeminiClient in the source). -/
structure GeminiClient where
  api_key : String
  endpoint : String

/-- The fixed part of the endpoint URL built by GeminiClient::new; the
api_key is appended after the key= query parameter. -/
def geminiEndpointBase : String :=
  "https://generativelanguage.googleapis.com/v1beta/models/gemini-2.5-flash:generateContent?key="

/-- GeminiClient::new: stores the api_key and the endpoint formatted
from it. -/
def GeminiClient.new (api_key : String) : GeminiClient :=
  { api_key := api_key, endpoint := geminiEndpointBase ++ api_key }

/-- An outbound HTTP request as generate assembles it: target URL,
headers, JSON body. -/
structure Request where
  url : String
  headers : List (String × String)
  body : Json

/-- The JSON body generate sends: contents with the prompt as the only
part, and the fixed generationConfig. -/
def requestBody (prompt : String) : Json :=
  Json.obj
    [("contents",
       Json.arr [Json.obj [("parts", Json.arr [Json.obj [("text", Json.str prompt)]])]]),
     ("generationConfig",
       Json.obj [("temperature", Json.num 0), ("maxOutputTokens", Json.num 4096)])]

/-- The request generate sends: POST to self.endpoint with the
x-goog-api-key header set to self.api_key and the fixed body. -/
def buildRequest (self : GeminiClient) (prompt : String) : Request :=
  { url := self.endpoint,
    headers := [("x-goog-api-key", self.api_key)],
    body := requestBody prompt }

/-- The wire-format body as §6 of the spec writes it, for comparison
with the body the code builds. -/
def specWireBody (prompt : String) : Json :=
  Json.obj
    [("contents",
       Json.arr [Json.obj [("parts", Json.arr [Json.obj [("text", Json.str prompt)]])]]),
     ("generationConfig",
       Json.obj [("temperature", Json.num 0), ("maxOutputTokens", Json.num 4096)])]

/-- The generation error taxonomy of the spec, as generate realizes it:
transport failures carry a cause, HTTP failures carry status and raw
body, extraction failures carry the original response. -/
inductive GenerationError where
  | transportError (cause : String) : GenerationError
  | serviceError (status : Nat) (body : String) : GenerationError
  | malformedResponse (response : Json) : GenerationError

/-- A received HTTP response as generate consumes it: the status code,
the outcome of reading the body as text (resp.text()), and the outcome
of decoding the body as JSON (resp.json()). -/
structure HttpResponse where
  status : Nat
  text : Except String String
  json : Except String Json

/-- reqwest StatusCode::is_success: 200 through 299. -/
def statusIsSuccess (s : Nat) : Bool :=
  decide (200 ≤ s ∧ s ≤ 299)

/-- What generate does with a received response: on a non-success
status, read the body text (propagating a read failure as a transport
error) and fail with the service error; on success, decode JSON
(propagating a decode failure as a transport error) and delegate to
parse_response_json. -/
def handleResponse (resp : HttpResponse) : Except GenerationError String :=
  if statusIsSuccess resp.status then
    match resp.json with
    | Except.error cause => Except.error (GenerationError.transportError cause)
    | Except.ok v =>
      match parse_response_json v with
      | Except.ok s => Except.ok s
      | Except.error (ExtractionError.malformedResponse r) =>
        Except.error (GenerationError.malformedResponse r)
  else
    match resp.text with
    | Except.error cause => Except.error (GenerationError.transportError cause)
    | Except.ok body => Except.error (GenerationError.serviceError resp.status body)

/-- The outcome of sending a request: a transport failure, or a
response. -/
inductive SendResult where
  | failure (cause : String) : SendResult
  | response (resp : HttpResponse) : SendResult

/-- LLMClient::generate for GeminiClient: build the request, send it
over the network (modelled as a function from the request to a send
outcome), and handle the result. -/
def generate (self : GeminiClient) (prompt : String)
    (net : Request → SendResult) : Except GenerationError String :=
  match net (buildRequest self prompt) with
  | SendResult.failure cause => Except.error (GenerationError.transportError cause)
  | SendResult.response resp => handleResponse resp

/-- One string occurring inside another. -/
def occursIn (needle hay : String) : Prop :=
  ∃ p q, hay = p ++ needle ++ q

/-- The claim that a credential never reaches the request URL, for any
prompt sent through a client built from it. -/
def credentialAbsentFromUrl (api_key : String) : Prop :=
  ∀ prompt, ¬ occursIn api_key (buildRequest (GeminiClient.new api_key) prompt).url

/-- A well-formed response whose only candidate carries the given text. -/
def sampleResponse (t : String) : Json :=
  Json.obj [("candidates", Json.arr [Json.obj [("content",
    Json.obj [("parts", Json.arr [Json.obj [("text", Json.str t)]])])]])]

/-- A well-formed response with a second candidate, a second part and an
extra top-level field, all of which extraction ignores. -/
def sampleResponseExtras (t : String) : Json :=
  Json.obj [("candidates", Json.arr [Json.obj [("content",
      Json.obj [("parts", Json.arr [Json.obj [("text", Json.str t)], Json.num 3])])],
    Json.null]), ("extra", Json.bool true)]

/-- A response where the parts value is a number rather than a sequence. -/
def sampleBadParts : Json :=
  Json.obj [("candidates", Json.arr [Json.obj [("content",
    Json.obj [("parts", Json.num 7)])]])]

/-- A simulated HTTP 500 response with a readable error body. -/
def resp500 : HttpResponse :=
  { status := 500, text := Except.ok "internal error", json := Except.error "unread" }

/-- A simulated HTTP 502 response whose body cannot be read as text. -/
def resp502 : HttpResponse :=
  { status := 502, text := Except.error "connection reset", json := Except.error "unread" }

theorem Json.getIdx_eq_none_of_not_arr (c : Json) (h : c.isArr = false) (i : Nat) :
    c.getIdx i = none := by
  cases c <;> simp_all [Json.getIdx, Json.isArr]

theorem parse_eq_error_of_extract_none (v : Json) (h : extractTextOpt v = none) :
    parse_response_json v = Except.error (ExtractionError.malformedResponse v) := by
  simp [parse_response_json, h]

theorem extract_none_of_textLeaf_none (v : Json) (h : textLeaf v = none) :
    extractTextOpt v = none := by
  simp [extractTextOpt, h]

/-- C1: on any structured value matching the expected schema (a
candidates sequence whose first element has a content section with a
parts sequence whose first element has a string text field),
parse_response_json succeeds with exactly that string trimmed of
leading and trailing whitespace, also when the trimmed result is empty. -/
theorem parse_success (v cs c ct ps p0 : Json) (t : String)
    (h1 : v.getKey "candidates" = some cs)
    (h2 : cs.getIdx 0 = some c)
    (h3 : c.getKey "content" = some ct)
    (h4 : ct.getKey "parts" = some ps)
    (h5 : ps.getIdx 0 = some p0)
    (h6 : p0.getKey "text" = some (Json.str t)) :
    parse_response_json v = Except.ok (rustTrim t) := by
  have hx : extractTextOpt v = some (rustTrim t) := by
    simp [extractTextOpt, textLeaf, partsOf, candidates0, h1, h2, h3, h4, h5, h6, Json.asStr]
  simp [parse_response_json, hx]

theorem parse_success_witness :
    parse_response_json (sampleResponse "  Commit message here ") =
      Except.ok (rustTrim "  Commit message here ") ∧
    rustTrim "  Commit message here " = "Commit message here" ∧
    parse_response_json (sampleResponse " \n ") = Except.ok (rustTrim " \n ") ∧
    rustTrim " \n " = "" :=
  ⟨parse_success (sampleResponse "  Commit message here ") _ _ _ _ _
      "  Commit message here " rfl rfl rfl rfl rfl rfl,
   by decide,
   parse_success (sampleResponse " \n ") _ _ _ _ _ " \n " rfl rfl rfl rfl rfl rfl,
   by decide⟩

/-- C2: on any structured value missing the candidates key, with an
empty candidates sequence, missing a link of the expected path, or
whose text leaf is not a string, parse_response_json returns the
MalformedResponse error carrying the original response; extraction is
total, so it either fully succeeds or fully fails with that error. -/
theorem parse_malformed (v : Json) :
    (v.getKey "candidates" = none →
      parse_response_json v = Except.error (ExtractionError.malformedResponse v)) ∧
    (v.getKey "candidates" = some (Json.arr []) →
      parse_response_json v = Except.error (ExtractionError.malformedResponse v)) ∧
    (textLeaf v = none →
      parse_response_json v = Except.error (ExtractionError.malformedResponse v)) ∧
    (∀ t, textLeaf v = some t → t.asStr = none →
      parse_response_json v = Except.error (ExtractionError.malformedResponse v)) ∧
    ((∃ s, parse_response_json v = Except.ok s) ∨
      parse_response_json v = Except.error (ExtractionError.malformedResponse v)) := by
  refine ⟨?_, ?_, ?_, ?_, ?_⟩
  · intro h
    exact parse_eq_error_of_extract_none v (by
      simp [extractTextOpt, textLeaf, partsOf, candidates0, h])
  · intro h
    exact parse_eq_error_of_extract_none v (by
      simp [extractTextOpt, textLeaf, partsOf, candidates0, h, Json.getIdx])
  · intro h
    exact parse_eq_error_of_extract_none v (extract_none_of_textLeaf_none v h)
  · intro t h ha
    exact parse_eq_error_of_extract_none v (by simp [extractTextOpt, h, ha])
  · cases hx : extractTextOpt v with
    | some s => exact Or.inl ⟨s, by simp [parse_response_json, hx]⟩
    | none => exact Or.inr (parse_eq_error_of_extract_none v hx)

theorem parse_malformed_witness :
    parse_response_json (Json.obj [("wrong_key", Json.arr [])]) =
      Except.error (ExtractionError.malformedResponse (Json.obj [("wrong_key", Json.arr [])])) ∧
    parse_response_json (Json.obj [("candidates", Json.arr [])]) =
      Except.error (ExtractionError.malformedResponse (Json.obj [("candidates", Json.arr [])])) :=
  ⟨(parse_malformed (Json.obj [("wrong_key", Json.arr [])])).1 rfl,
   (parse_malformed (Json.obj [("candidates", Json.arr [])])).2.1 rfl⟩

/-- C7: parse_response_json is a pure deterministic function: two
results of applying it to the same structured value are equal. -/
theorem parse_deterministic (v : Json) (r₁ r₂ : Except ExtractionError String)
    (h₁ : parse_response_json v = r₁) (h₂ : parse_response_json v = r₂) :
    r₁ = r₂ :=
  h₁.symm.trans h₂

theorem parse_deterministic_witness :
    (Except.error (ExtractionError.malformedResponse Json.null) :
      Except ExtractionError String) =
      Except.error (ExtractionError.malformedResponse Json.null) :=
  parse_deterministic Json.null _ _ rfl rfl

/-- C8: when candidates (or, further down, parts) is present but is not
an ordered sequence, parse_response_json fails with the
MalformedResponse error; indexing a non-sequence with 0 yields nothing,
exactly like a missing key. -/
theorem parse_nonsequence (v cand p : Json) :
    (v.getKey "candidates" = some cand → cand.isArr = false →
      parse_response_json v = Except.error (ExtractionError.malformedResponse v)) ∧
    (partsOf v = some p → p.isArr = false →
      parse_response_json v = Except.error (ExtractionError.malformedResponse v)) ∧
    (cand.isArr = false → cand.getIdx 0 = none) := by
  refine ⟨?_, ?_, ?_⟩
  · intro hc hna
    refine parse_eq_error_of_extract_none v (extract_none_of_textLeaf_none v ?_)
    simp [textLeaf, partsOf, candidates0, hc, Json.getIdx_eq_none_of_not_arr cand hna]
  · intro hp hna
    refine parse_eq_error_of_extract_none v (extract_none_of_textLeaf_none v ?_)
    simp [textLeaf, hp, Json.getIdx_eq_none_of_not_arr p hna]
  · intro hna
    exact Json.getIdx_eq_none_of_not_arr cand hna 0

theorem parse_nonsequence_witness :
    parse_response_json (Json.obj [("candidates", Json.str "nope")]) =
      Except.error (ExtractionError.malformedResponse
        (Json.obj [("candidates", Json.str "nope")])) ∧
    parse_response_json sampleBadParts =
      Except.error (ExtractionError.malformedResponse sampleBadParts) :=
  ⟨(parse_nonsequence (Json.obj [("candidates", Json.str "nope")])
      (Json.str "nope") Json.null).1 rfl rfl,
   (parse_nonsequence sampleBadParts Json.null (Json.num 7)).2.1 rfl rfl⟩

/-- C6 counterexample: two structured values that agree on every link of
the extraction path (both lack the candidates key) but differ in other
fields yield different results, because the MalformedResponse error
carries the whole original response. -/
theorem parse_extras_counterexample :
    Json.getKey (Json.obj [("a", Json.null)]) "candidates" = none ∧
    Json.getKey (Json.obj [("b", Json.null)]) "candidates" = none ∧
    parse_response_json (Json.obj [("a", Json.null)]) ≠
      parse_response_json (Json.obj [("b", Json.null)]) := by
  refine ⟨rfl, rfl, ?_⟩
  intro h
  rw [show parse_response_json (Json.obj [("a", Json.null)]) =
        Except.error (ExtractionError.malformedResponse (Json.obj [("a", Json.null)])) from rfl,
      show parse_response_json (Json.obj [("b", Json.null)]) =
        Except.error (ExtractionError.malformedResponse (Json.obj [("b", Json.null)])) from rfl]
    at h
  simp at h

/-- C6 amended: extraction consults only the fixed path; two structured
values reaching the same text leaf yield the same extracted option, the
same success results, and fail together, each failure carrying its own
original response. -/
theorem parse_path_determined (v w : Json) (h : textLeaf v = textLeaf w) :
    extractTextOpt v = extractTextOpt w ∧
    (∀ s, parse_response_json v = Except.ok s ↔ parse_response_json w = Except.ok s) ∧
    (parse_response_json v = Except.error (ExtractionError.malformedResponse v) ↔
      parse_response_json w = Except.error (ExtractionError.malformedResponse w)) := by
  have hx : extractTextOpt v = extractTextOpt w := by simp [extractTextOpt, h]
  refine ⟨hx, ?_, ?_⟩
  · intro s
    cases he : extractTextOpt w with
    | some t =>
      have hv : extractTextOpt v = some t := hx.trans he
      simp [parse_response_json, hv, he]
    | none =>
      have hv : extractTextOpt v = none := hx.trans he
      simp [parse_response_json, hv, he]
  · cases he : extractTextOpt w with
    | some t =>
      have hv : extractTextOpt v = some t := hx.trans he
      simp [parse_response_json, hv, he]
    | none =>
      have hv : extractTextOpt v = none := hx.trans he
      simp [parse_response_json, hv, he]

theorem parse_path_determined_witness :
    extractTextOpt (sampleResponseExtras "m") = extractTextOpt (sampleResponse "m") ∧
    (parse_response_json (sampleResponseExtras "m") = Except.ok "m" ↔
      parse_response_json (sampleResponse "m") = Except.ok "m") :=
  ⟨(parse_path_determined (sampleResponseExtras "m") (sampleResponse "m") rfl).1,
   (parse_path_determined (sampleResponseExtras "m") (sampleResponse "m") rfl).2.1 "m"⟩

/-- C4: on a received response with a non-success HTTP status whose
body reads as text, generate fails with the service error carrying the
numeric status and the raw body, and the outcome does not depend on
how the body would decode as JSON. -/
theorem generate_service_error (resp : HttpResponse) (body : String)
    (hs : statusIsSuccess resp.status = false)
    (ht : resp.text = Except.ok body) :
    (∀ client prompt,
      generate client prompt (fun _ => SendResult.response resp) =
        Except.error (GenerationError.serviceError resp.status body)) ∧
    (∀ j, handleResponse { resp with json := j } = handleResponse resp) := by
  constructor
  · intro client prompt
    simp [generate, handleResponse, hs, ht]
  · intro j
    simp [handleResponse, hs, ht]

theorem generate_service_error_witness :
    generate (GeminiClient.new "k") "p" (fun _ => SendResult.response resp500) =
      Except.error (GenerationError.serviceError 500 "internal error") :=
  (generate_service_error resp500 "internal error" rfl rfl).1 (GeminiClient.new "k") "p"

/-- C9: on a received response with a non-success HTTP status whose
body cannot be read as text, generate fails with a transport error
carrying the underlying cause; a service error is produced only when
the body text was read successfully, and then it carries that body and
the status of the response. -/
theorem generate_error_body_unreadable (resp : HttpResponse)
    (hs : statusIsSuccess resp.status = false) :
    (∀ cause, resp.text = Except.error cause →
      ∀ client prompt,
        generate client prompt (fun _ => SendResult.response resp) =
          Except.error (GenerationError.transportError cause)) ∧
    (∀ st b, handleResponse resp = Except.error (GenerationError.serviceError st b) →
      resp.text = Except.ok b ∧ st = resp.status) := by
  constructor
  · intro cause hc client prompt
    simp [generate, handleResponse, hs, hc]
  · intro st b h
    cases ht : resp.text with
    | error c =>
      rw [handleResponse, ht] at h
      simp [hs] at h
    | ok body =>
      rw [handleResponse, ht] at h
      simp [hs] at h
      exact ⟨by rw [h.2], h.1.symm⟩

theorem generate_error_body_unreadable_witness :
    generate (GeminiClient.new "k") "p" (fun _ => SendResult.response resp502) =
      Except.error (GenerationError.transportError "connection reset") :=
  (generate_error_body_unreadable resp502 rfl).1 "connection reset" rfl
    (GeminiClient.new "k") "p"

/-- C5: for every client and every prompt, empty included, the request
body generate sends is exactly the fixed envelope of the spec, with the
prompt forwarded verbatim as the only part and the generation
parameters fixed at temperature 0 and maxOutputTokens 4096,
independent of the client and the caller. -/
theorem generate_request_body_fixed (client : GeminiClient) (prompt : String) :
    (buildRequest client prompt).body = specWireBody prompt ∧
    Json.getKey (buildRequest client prompt).body "generationConfig" =
      some (Json.obj [("temperature", Json.num 0), ("maxOutputTokens", Json.num 4096)]) ∧
    Json.getKey (buildRequest client prompt).body "contents" =
      some (Json.arr [Json.obj [("parts", Json.arr [Json.obj [("text", Json.str prompt)]])]]) :=
  ⟨rfl, rfl, rfl⟩

/-- C10: the credential reaches the server twice per request: embedded
in the endpoint URL as the key query parameter fixed at construction,
and as the value of the x-goog-api-key header. -/
theorem credential_transmitted_twice (api_key prompt : String) :
    (GeminiClient.new api_key).endpoint = geminiEndpointBase ++ api_key ∧
    (buildRequest (GeminiClient.new api_key) prompt).url = (GeminiClient.new api_key).endpoint ∧
    (buildRequest (GeminiClient.new api_key) prompt).headers = [("x-goog-api-key", api_key)] :=
  ⟨rfl, rfl, rfl⟩

/-- C3 counterexample: the claim that the credential never appears in
the request URL fails for the concrete credential SECRET-KEY-123: the
URL of the request built from it contains it as the key query
parameter. -/
theorem credential_in_url_counterexample :
    ¬ credentialAbsentFromUrl "SECRET-KEY-123" :=
  fun h => h "hello" ⟨geminiEndpointBase, "", rfl⟩

/-- C3 amended: the credential is transmitted as the x-goog-api-key
authentication header and, additionally, occurs inside the request URL
as the key query parameter. -/
theorem credential_in_header_and_url (api_key prompt : String) :
    ("x-goog-api-key", api_key) ∈ (buildRequest (GeminiClient.new api_key) prompt).headers ∧
    occursIn api_key (buildRequest (GeminiClient.new api_key) prompt).url := by
  refine ⟨List.mem_cons_self _ _, geminiEndpointBase, "", ?_⟩
  simp [buildRequest, GeminiClient.new]
